import Mathlib

/-!
Shallow embedding of the trend-retrieval subsystem of this repository
(file `fetch/google_trends.py`).

Conventions of the embedding:
* machine floats are modelled as `Rat` (all scores in the source are either
  provider integers, `100`, or `100 - idx`, so no float-specific behaviour
  is relied upon);
* wall-clock time is a `Rat` number of seconds; `datetime.now()` and
  `time.time()` are modelled by an environment field `now` held fixed for
  the duration of one call;
* Python exceptions are modelled with `Except PyErr`; a `try/except`
  becomes a `match` on the guarded computation; external calls (provider,
  auxiliary suggestion lookup, file reads) take their outcome from an
  environment record, so one Lean input describes one behaviour of the
  outside world;
* the on-disk cache directory is an association list from cache key to a
  stored file, where a stored file is either well-formed (timestamp plus
  payload, as written by `save_to_cache`) or unreadable (malformed JSON or
  bad timestamp, possible only in the initial state);
* the Python `set` accumulator of `fetch_dynamic_keywords` is determinised
  as an insertion-ordered duplicate-free list; every theorem below that
  depends on it is insensitive to the iteration order of the set.
-/

/-- Decidable equality for `Except`, used to evaluate the model at
concrete environments. -/
instance {ε α : Type} [DecidableEq ε] [DecidableEq α] : DecidableEq (Except ε α) := fun a b =>
  match a, b with
  | .ok x, .ok y =>
    if h : x = y then .isTrue (by rw [h]) else .isFalse (by intro hc; cases hc; exact h rfl)
  | .error x, .error y =>
    if h : x = y then .isTrue (by rw [h]) else .isFalse (by intro hc; cases hc; exact h rfl)
  | .ok _, .error _ => .isFalse (by intro hc; cases hc)
  | .error _, .ok _ => .isFalse (by intro hc; cases hc)

/-- A Python exception value: whether it is a `TypeError` (the only
exception type the source matches on), and its message text (`str(e)`). -/
structure PyErr where
  isTypeError : Bool
  msg : String
deriving DecidableEq, Repr

/-- The `value` column of a provider row: a number, or the literal
sentinel string `Breakout`. -/
inductive RawVal
  | breakout
  | num (v : Rat)
deriving DecidableEq, Repr

/-- One row of a `rising`/`top` sub-table of the primary provider
response: `query` text and `value`. -/
structure ProviderRow where
  query : String
  value : RawVal
deriving DecidableEq, Repr

/-- Per-keyword result group of `related_queries`: the optional `rising`
and `top` sub-tables (`none` models an absent table, `some []` an empty
one; the source skips both). -/
structure TrendGroup where
  rising : Option (List ProviderRow)
  top : Option (List ProviderRow)
deriving DecidableEq, Repr

/-- The primary provider response: keyword → group, in iteration order of
the Python dict. -/
def ProviderData := List (String × TrendGroup)
deriving DecidableEq, Repr

/-- The normalized record dict built by the source
(`keyword`/`score`/`type`/`source`/`timestamp` keys; the timestamp is the
numeric clock standing for `datetime.now().isoformat()`). -/
structure TrendRecord where
  keyword : String
  score : Rat
  type : String
  source : String
  timestamp : Rat
deriving DecidableEq, Repr

/- ----------------------------------------------------------------
String helpers: Python `needle in hay` (substring test) and
`s.lower().strip()`.  All strings in scope are ASCII, where
`Char.toLower` agrees with Python `str.lower`.
---------------------------------------------------------------- -/

/-- `leadsWith n h` : the char list `n` is an initial segment of `h`. -/
def leadsWith : List Char → List Char → Bool
  | [], _ => true
  | _ :: _, [] => false
  | a :: asl, b :: bs => a = b && leadsWith asl bs

/-- `occursIn n h` : the char list `n` occurs contiguously inside `h`
(Python substring membership). -/
def occursIn (n : List Char) : List Char → Bool
  | [] => leadsWith n []
  | c :: rest => leadsWith n (c :: rest) || occursIn n rest

/-- Python `sub in hay` on strings. -/
def strContains (hay sub : String) : Bool :=
  occursIn sub.data hay.data

/-- Python `str.lower()` (all strings in scope are ASCII). -/
def lowerStr (s : String) : String :=
  ⟨s.data.map Char.toLower⟩

/-- Python `str.strip()` (drop leading and trailing whitespace). -/
def stripStr (s : String) : String :=
  ⟨((s.data.dropWhile Char.isWhitespace).reverse.dropWhile Char.isWhitespace).reverse⟩

/-- `row['query'].lower().strip()` — the deduplication key of the source. -/
def normKw (s : String) : String :=
  stripStr (lowerStr s)

/- ----------------------------------------------------------------
Request throttle (`can_make_request`, `record_request_time`).
---------------------------------------------------------------- -/

/-- `MIN_REQUEST_INTERVAL = 60`. -/
def MIN_REQUEST_INTERVAL : Rat := 60

/-- The persisted state of `cache/last_google_request.txt`: the file is
absent, unreadable (open/parse raises, swallowed by the bare `except`), or
holds a float timestamp. -/
inductive LastReq
  | absent
  | corrupt
  | val (t : Rat)
deriving DecidableEq, Repr

/-- `can_make_request()`: true when the last-request file is absent, its
read fails, or at least `MIN_REQUEST_INTERVAL` seconds have passed. -/
def can_make_request (now : Rat) (f : LastReq) : Bool :=
  match f with
  | .absent => true
  | .corrupt => true
  | .val t => if now - t < MIN_REQUEST_INTERVAL then false else true

/-- `record_request_time()`: overwrite the persisted timestamp with the
current time. -/
def record_request_time (now : Rat) : LastReq :=
  .val now

/- ----------------------------------------------------------------
Local response cache (`get_cached_results`, `save_to_cache`).
---------------------------------------------------------------- -/

/-- One stored cache file: well-formed content `{timestamp, results}`, or
unreadable (json/timestamp parse raises; the source logs and treats it as
a miss). -/
inductive CacheFile
  | good (storedAt : Rat) (results : List TrendRecord)
  | corrupt
deriving DecidableEq, Repr

/-- The cache directory: cache key → stored file. -/
def Cache := List (String × CacheFile)
deriving DecidableEq, Repr

/-- Lookup of `cache/{key}.json`. -/
def cacheLookup (c : Cache) (key : String) : Option CacheFile :=
  (List.find? (fun p => p.1 == key) c).map (fun p => p.2)

/-- `get_cached_results(cache_key, max_age_hours)`: `none` when the file
is absent or unreadable or its age is not strictly below
`max_age_hours * 3600` seconds. -/
def get_cached_results (c : Cache) (now : Rat) (key : String) (max_age_hours : Rat) :
    Option (List TrendRecord) :=
  match cacheLookup c key with
  | none => none
  | some .corrupt => none
  | some (.good t rs) => if now - t < max_age_hours * 3600 then some rs else none

/-- `save_to_cache(cache_key, results)`: overwrite `cache/{key}.json` with
`{timestamp: now, results}`. -/
def save_to_cache (c : Cache) (now : Rat) (key : String) (rs : List TrendRecord) : Cache :=
  (key, .good now rs) :: List.filter (fun p => !(p.1 == key)) c

/-- Python truthiness of the `cached` variable (`None` and `[]` are both
falsy): the source guards every cache hit with `if cached:`. -/
def truthy : Option (List TrendRecord) → Bool
  | some (_ :: _) => true
  | _ => false

/-- The value returned on a truthy cache hit. -/
def truthyGet : Option (List TrendRecord) → List TrendRecord
  | some l => l
  | none => []

/- ----------------------------------------------------------------
Keyword discovery (`fetch_dynamic_keywords`).
---------------------------------------------------------------- -/

/-- Outcome of one auxiliary suggestion lookup
(`requests.get(suggestqueries...)` plus `r.json()[1]`): the request
raises, or returns a status code with a parsed suggestion list (`none`
when `r.json()[1]` raises). -/
inductive SuggestResult
  | fails
  | resp (status : Nat) (body : Option (List String))
deriving DecidableEq, Repr

/-- The hard-coded seed vocabulary. -/
def seed_terms : List String :=
  ["education", "exam", "online course", "study tips", "scholarship"]

/-- Ordered-set insertion: the determinisation of `set.add`/`set.update`
(membership is exact string equality, as in Python). -/
def insertNew (l : List String) (x : String) : List String :=
  if x ∈ l then l else l ++ [x]

/-- `fetch_dynamic_keywords()`: seed the accumulator with `seed_terms`;
for each of the first 3 seeds, on a 200 response with a parsed body add
up to 2 suggestions (any failure for a seed is logged and skipped);
finally `list(all_keywords)[:10]`. -/
def fetch_dynamic_keywords (sug : String → SuggestResult) : List String :=
  let init := seed_terms.foldl insertNew []
  let afterLoop := (seed_terms.take 3).foldl
    (fun acc seed =>
      match sug seed with
      | .resp 200 (some suggestions) => (suggestions.take 2).foldl insertNew acc
      | _ => acc) init
  afterLoop.take 10

/- ----------------------------------------------------------------
Primary query retry loop (`related_queries` with backoff).
---------------------------------------------------------------- -/

/-- One `time.sleep` performed by the retry loop: a fixed backoff of
`secs` seconds, or a `random.uniform(lo, hi)` draw. -/
inductive SleepEvent
  | fixed (secs : Rat)
  | uniform (lo hi : Rat)
deriving DecidableEq, Repr

/-- The `for attempt in range(3)` loop around `pytrends.related_queries()`,
recursing over the attempt indices (`range(3)` is `[0, 1, 2]`):
`attempts i` is the outcome of the i-th call; returns the first successful
payload (`data`), and the list of sleeps performed: `(2 ** attempt) * 30`
seconds on an error whose text contains `429` (Python integer
arithmetic), otherwise a `uniform(5, 10)` draw. -/
def rqLoop (attempts : Nat → Except PyErr ProviderData) :
    List Nat → Option ProviderData × List SleepEvent
  | [] => (none, [])
  | idx :: rest =>
    match attempts idx with
    | .ok d => (some d, [])
    | .error e =>
      let ev := if strContains e.msg "429" then SleepEvent.fixed ((2 ^ idx * 30 : Nat) : Rat)
                else SleepEvent.uniform 5 10
      let r2 := rqLoop attempts rest
      (r2.1, ev :: r2.2)

/- ----------------------------------------------------------------
Step 6: walking the rising/top sub-tables.
---------------------------------------------------------------- -/

/-- Which sub-table a row came from. -/
inductive RType
  | rising
  | top
deriving DecidableEq, Repr

/-- Flatten the provider response in the exact iteration order of the
source: for each keyword group, its `rising` rows then its `top` rows
(an absent table and an empty table both contribute nothing, matching
`if rising is not None and not rising.empty`). -/
def flatRows (data : ProviderData) : List (RType × ProviderRow) :=
  data.flatMap (fun g =>
    (g.2.rising.getD []).map (fun row => (RType.rising, row)) ++
    (g.2.top.getD []).map (fun row => (RType.top, row)))

/-- The `ValueError` raised by `float("Breakout")` on a top row. -/
def floatBreakoutErr : PyErr :=
  ⟨false, "could not convert string to float: Breakout"⟩

/-- The per-row score computation of the source: a rising row checks the
`Breakout` sentinel (`score = 100`), every other value goes through
`float(...)`, which raises on the sentinel text in a top row. -/
def rowScore : RType → RawVal → Except PyErr Rat
  | .rising, .breakout => .ok 100
  | .rising, .num v => .ok v
  | .top, .num v => .ok v
  | .top, .breakout => .error floatBreakoutErr

/-- The accumulation loop of step 6 over the flattened rows, threading the
`seen_keywords` set (here: list) and building `results` in append order.
A raised `ValueError` discards everything accumulated so far, exactly as
the exception does in the source. -/
def processRows (now : Rat) : List (RType × ProviderRow) → List String →
    Except PyErr (List TrendRecord)
  | [], _ => .ok []
  | (ty, row) :: rest, seen =>
    let kw := normKw row.query
    if kw ∈ seen then processRows now rest seen
    else
      match rowScore ty row.value with
      | .error e => .error e
      | .ok sc =>
        (processRows now rest (kw :: seen)).map
          (fun rs =>
            { keyword := row.query, score := sc,
              type := match ty with | .rising => "rising" | .top => "top",
              source := "google_trends", timestamp := now } :: rs)

/- ----------------------------------------------------------------
Ranking: `results.sort(key=lambda x: x['score'], reverse=True)`.
CPython list.sort is stable; descending stable sort is insertion sort
with the reflexive "score at least" relation.
---------------------------------------------------------------- -/

/-- The sort relation: `a` may come before `b` when `a.score ≥ b.score`. -/
def scoreGe (a b : TrendRecord) : Prop := b.score ≤ a.score

instance : DecidableRel scoreGe := fun a b => inferInstanceAs (Decidable (b.score ≤ a.score))

instance : IsTotal TrendRecord scoreGe := ⟨fun a b => le_total b.score a.score⟩

instance : IsTrans TrendRecord scoreGe := ⟨fun _ _ _ h1 h2 => le_trans h2 h1⟩

/-- The stable descending sort of the source. -/
def sortDesc (l : List TrendRecord) : List TrendRecord :=
  List.insertionSort scoreGe l

/- ----------------------------------------------------------------
The environment of one `fetch_google_trends` call.
---------------------------------------------------------------- -/

/-- Everything outside the function that one call can observe: the clock,
the cache directory, the throttle file, the suggestion service, the two
`TrendReq` constructions (`none` = returns normally, `some e` = raises
`e`; the second is consulted only when the first raises a `TypeError`),
`build_payload`, the three `related_queries` attempts, and the
`interest_over_time` fallback response (`.ok none` models a `None`/empty
frame, `.ok (some lastRow)` the final row as keyword → value). -/
structure FetchEnv where
  now : Rat
  cache : Cache
  lastRequest : LastReq
  suggestions : String → SuggestResult
  trendReq1 : Option PyErr
  trendReq2 : Option PyErr
  buildPayload : Option PyErr
  attempts : Nat → Except PyErr ProviderData
  interestOverTime : Except PyErr (Option (List (String × Rat)))

/-- The `except Exception` clause of `fetch_google_trends`: on an error
text containing `429` or (lowercased) `rate`, a relaxed 24-hour cache
read is attempted; any truthy payload is returned, otherwise `[]`. -/
def handleFetchError (env : FetchEnv) (cache_key : String) (e : PyErr) :
    Except PyErr (List TrendRecord) × Cache :=
  if strContains e.msg "429" || strContains (lowerStr e.msg) "rate" then
    let c := get_cached_results env.cache env.now cache_key 24
    if truthy c then (.ok (truthyGet c), env.cache) else (.ok [], env.cache)
  else (.ok [], env.cache)

/-- `fallback_interest(pytrends, keywords, cache_key)`: read the last row
of `interest_over_time`; for each discovered keyword with a positive
value emit an `interest` record; sort descending; write through to cache.
Its own `except` turns any error into `[]`. -/
def fallback_interest (env : FetchEnv) (keywords : List String) (cache_key : String) :
    List TrendRecord × Cache :=
  match env.interestOverTime with
  | .error _ => ([], env.cache)
  | .ok none => ([], env.cache)
  | .ok (some lastRow) =>
    let results := keywords.filterMap (fun kw =>
      let score := ((List.find? (fun p => p.1 == kw) lastRow).map (fun p => p.2)).getD 0
      if 0 < score then
        some { keyword := kw, score := score, type := "interest",
               source := "google_trends_fallback", timestamp := env.now }
      else none)
    let sorted := sortDesc results
    (sorted, save_to_cache env.cache env.now cache_key sorted)

/-- The cache key `f"google_trends_{geo}_{timeframe}"`. -/
def googleCacheKey (geo timeframe : String) : String :=
  "google_trends_" ++ geo ++ "_" ++ timeframe

/-- The body of the `try:` block of `fetch_google_trends` (everything the
`except Exception` clause guards), given the discovered keywords. The
`record_request_time()` write is a throttle-state effect not observed by
any later step of the same call, so it does not appear in the value. -/
def fetchTryBlock (env : FetchEnv) (cache_key : String) (keywords : List String) :
    Except PyErr (List TrendRecord) × Cache :=
  match env.buildPayload with
  | some e => handleFetchError env cache_key e
  | none =>
    match (rqLoop env.attempts [0, 1, 2]).1 with
    | none =>
      let fb := fallback_interest env keywords cache_key
      (.ok fb.1, fb.2)
    | some data =>
      match processRows env.now (flatRows data) [] with
      | .error e => handleFetchError env cache_key e
      | .ok results =>
        if results.isEmpty then
          let fb := fallback_interest env keywords cache_key
          (.ok fb.1, fb.2)
        else
          let sorted := sortDesc results
          (.ok sorted, save_to_cache env.cache env.now cache_key sorted)

/-- `fetch_google_trends(geo, timeframe, use_cache, cache_hours)`.
The result is `.error e` exactly when the call raises `e` to its caller;
the second component is the cache directory after the call. The two
`TrendReq` constructions sit outside the guarded `try:` block: a
non-`TypeError` from the first, or anything from the second, escapes. -/
def fetch_google_trends (geo timeframe : String) (use_cache : Bool) (cache_hours : Rat)
    (env : FetchEnv) : Except PyErr (List TrendRecord) × Cache :=
  let cache_key := googleCacheKey geo timeframe
  let c0 := get_cached_results env.cache env.now cache_key cache_hours
  if use_cache && truthy c0 then (.ok (truthyGet c0), env.cache)
  else if !can_make_request env.now env.lastRequest then
    let c1 := get_cached_results env.cache env.now cache_key 24
    if truthy c1 then (.ok (truthyGet c1), env.cache) else (.ok [], env.cache)
  else
    let keywords := fetch_dynamic_keywords env.suggestions
    match env.trendReq1 with
    | none => fetchTryBlock env cache_key keywords
    | some e =>
      if e.isTypeError then
        match env.trendReq2 with
        | none => fetchTryBlock env cache_key keywords
        | some e2 => (.error e2, env.cache)
      else (.error e, env.cache)

/- ----------------------------------------------------------------
Lightweight trending-list retrieval (`get_trending_topics`).
---------------------------------------------------------------- -/

/-- The fixed education-related substring filter list. -/
def edu_keywords : List String :=
  ["exam", "result", "admission", "course", "university",
   "college", "school", "education", "student", "study",
   "test", "entrance", "scholarship", "degree", "learning",
   "jee", "neet", "upsc", "gate", "cat", "gre", "ielts"]

/-- `any(term in keyword.lower() for term in edu_keywords)`. -/
def eduMatch (keyword : String) : Bool :=
  edu_keywords.any (fun term => strContains (lowerStr keyword) term)

/-- The `for idx, keyword in enumerate(trending[0])` loop: keep the
education-related entries, scoring each `100 - idx` with `idx` its rank
in the raw list (Python evaluates `100 - idx` in integer arithmetic). -/
def buildTrendingRecords (now : Rat) : Nat → List String → List TrendRecord
  | _, [] => []
  | idx, k :: rest =>
    if eduMatch k then
      { keyword := k, score := ((100 - (idx : Int) : Int) : Rat), type := "trending",
        source := "google_trending", timestamp := now } ::
        buildTrendingRecords now (idx + 1) rest
    else buildTrendingRecords now (idx + 1) rest

/-- The environment of one `get_trending_topics` call: clock, cache,
`TrendReq` construction outcome (here inside the `try:`), and the
`trending_searches` response (its first column as a string list). -/
structure TrendingEnv where
  now : Rat
  cache : Cache
  ctorErr : Option PyErr
  trending : Except PyErr (List String)

/-- `get_trending_topics(geo)`: a 30-minute cache read guarded by Python
truthiness, then one lightweight query whose failures are all swallowed
into `[]`; results are written through to cache. -/
def get_trending_topics (geo : String) (env : TrendingEnv) :
    Except PyErr (List TrendRecord) × Cache :=
  let cache_key := "trending_topics_" ++ geo
  let c0 := get_cached_results env.cache env.now cache_key (1 / 2)
  if truthy c0 then (.ok (truthyGet c0), env.cache)
  else
    match env.ctorErr with
    | some _ => (.ok [], env.cache)
    | none =>
      match env.trending with
      | .error _ => (.ok [], env.cache)
      | .ok raw =>
        let results := buildTrendingRecords env.now 0 raw
        (.ok results, save_to_cache env.cache env.now cache_key results)

/- ----------------------------------------------------------------
Helper definitions and lemmas shared by the claim theorems.
---------------------------------------------------------------- -/

/-- The `TrendReq` construction completes without an uncaught exception:
the first call returns, or raises a `TypeError` and the second call
returns. -/
def ctorFine (env : FetchEnv) : Bool :=
  match env.trendReq1 with
  | none => true
  | some e => e.isTypeError && env.trendReq2.isNone

/-- The projection used to read a returned list out of the model. -/
def fetchedList (r : Except PyErr (List TrendRecord)) : List TrendRecord :=
  match r with
  | .ok l => l
  | .error _ => []

theorem fetch_reaches_tryBlock (geo timeframe : String) (use_cache : Bool) (cache_hours : Rat)
    (env : FetchEnv)
    (hc : (use_cache && truthy (get_cached_results env.cache env.now
        (googleCacheKey geo timeframe) cache_hours)) = false)
    (ht : can_make_request env.now env.lastRequest = true)
    (hk : ctorFine env = true) :
    fetch_google_trends geo timeframe use_cache cache_hours env =
      fetchTryBlock env (googleCacheKey geo timeframe) (fetch_dynamic_keywords env.suggestions) := by
  cases h1 : env.trendReq1 with
  | none =>
    simp only [fetch_google_trends, hc, Bool.false_eq_true, if_false, ht, Bool.not_true,
      h1]
  | some e =>
    have hk' : e.isTypeError = true ∧ env.trendReq2 = none := by
      unfold ctorFine at hk
      rw [h1] at hk
      simp only [Bool.and_eq_true, Option.isNone_iff_eq_none] at hk
      exact hk
    simp only [fetch_google_trends, hc, Bool.false_eq_true, if_false, ht, Bool.not_true,
      h1, hk'.1, hk'.2, if_true]

theorem fetch_primary_eq (geo timeframe : String) (use_cache : Bool) (cache_hours : Rat)
    (env : FetchEnv) (data : ProviderData) (res0 : List TrendRecord)
    (hc : (use_cache && truthy (get_cached_results env.cache env.now
        (googleCacheKey geo timeframe) cache_hours)) = false)
    (ht : can_make_request env.now env.lastRequest = true)
    (hk : ctorFine env = true)
    (hb : env.buildPayload = none)
    (hd : (rqLoop env.attempts [0, 1, 2]).1 = some data)
    (hp : processRows env.now (flatRows data) [] = .ok res0)
    (hne : res0.isEmpty = false) :
    fetch_google_trends geo timeframe use_cache cache_hours env =
      (.ok (sortDesc res0),
       save_to_cache env.cache env.now (googleCacheKey geo timeframe) (sortDesc res0)) := by
  rw [fetch_reaches_tryBlock geo timeframe use_cache cache_hours env hc ht hk]
  unfold fetchTryBlock
  simp only [hb, hd, hp, hne, Bool.false_eq_true, if_false]

theorem fetch_fallback_eq (geo timeframe : String) (use_cache : Bool) (cache_hours : Rat)
    (env : FetchEnv)
    (hc : (use_cache && truthy (get_cached_results env.cache env.now
        (googleCacheKey geo timeframe) cache_hours)) = false)
    (ht : can_make_request env.now env.lastRequest = true)
    (hk : ctorFine env = true)
    (hb : env.buildPayload = none)
    (hd : (rqLoop env.attempts [0, 1, 2]).1 = none) :
    fetch_google_trends geo timeframe use_cache cache_hours env =
      (.ok (fallback_interest env (fetch_dynamic_keywords env.suggestions)
              (googleCacheKey geo timeframe)).1,
       (fallback_interest env (fetch_dynamic_keywords env.suggestions)
              (googleCacheKey geo timeframe)).2) := by
  rw [fetch_reaches_tryBlock geo timeframe use_cache cache_hours env hc ht hk]
  unfold fetchTryBlock
  simp only [hb, hd]

theorem sortDesc_pairwise (l : List TrendRecord) : (sortDesc l).Pairwise scoreGe :=
  List.sorted_insertionSort scoreGe l

theorem sortDesc_perm (l : List TrendRecord) : (sortDesc l).Perm l :=
  List.perm_insertionSort scoreGe l

theorem filter_orderedInsert_pos (a : TrendRecord) (l : List TrendRecord)
    (p : TrendRecord → Bool) (hp : p a = true)
    (hr : ∀ b, p b = true → scoreGe a b) :
    (List.orderedInsert scoreGe a l).filter p = a :: l.filter p := by
  induction l with
  | nil => simp [List.orderedInsert, hp]
  | cons b t ih =>
    by_cases hab : scoreGe a b
    · rw [List.orderedInsert, if_pos hab, List.filter_cons, List.filter_cons]
      simp [hp]
    · have hpb : p b = false := by
        cases hq : p b
        · rfl
        · exact absurd (hr b hq) hab
      rw [List.orderedInsert, if_neg hab, List.filter_cons, List.filter_cons, hpb]
      simp only [Bool.false_eq_true, if_false, ih]

theorem filter_orderedInsert_neg (a : TrendRecord) (l : List TrendRecord)
    (p : TrendRecord → Bool) (hp : p a = false) :
    (List.orderedInsert scoreGe a l).filter p = l.filter p := by
  induction l with
  | nil => simp [List.orderedInsert, hp]
  | cons b t ih =>
    by_cases hab : scoreGe a b
    · rw [List.orderedInsert, if_pos hab, List.filter_cons, List.filter_cons, hp]
      simp
    · rw [List.orderedInsert, if_neg hab, List.filter_cons, List.filter_cons, ih]

theorem sortDesc_filter_score (l : List TrendRecord) (s : Rat) :
    (sortDesc l).filter (fun q => decide (q.score = s)) =
      l.filter (fun q => decide (q.score = s)) := by
  induction l with
  | nil => rfl
  | cons a t ih =>
    unfold sortDesc at ih ⊢
    rw [List.insertionSort]
    by_cases ha : a.score = s
    · have hr : ∀ b : TrendRecord, decide (b.score = s) = true → scoreGe a b := by
        intro b hb
        have hbs : b.score = s := of_decide_eq_true hb
        unfold scoreGe
        rw [ha, hbs]
      rw [filter_orderedInsert_pos a _ _ (by simp [ha]) hr, ih, List.filter_cons]
      simp [ha]
    · rw [filter_orderedInsert_neg a _ _ (by simp [ha]), ih, List.filter_cons]
      simp [ha]

theorem processRows_invariant (now : Rat) (rows : List (RType × ProviderRow)) :
    ∀ (seen : List String) (res : List TrendRecord),
      processRows now rows seen = .ok res →
      ((res.map (fun q => normKw q.keyword)).Nodup ∧
       (∀ q ∈ res, normKw q.keyword ∉ seen) ∧
       (∀ q ∈ res, ∃ p : RType × ProviderRow,
          List.find? (fun pr => normKw pr.2.query == normKw q.keyword) rows = some p ∧
          p.2.query = q.keyword ∧ rowScore p.1 p.2.value = .ok q.score)) := by
  induction rows with
  | nil =>
    intro seen res h
    simp only [processRows] at h
    injection h with h
    subst h
    refine ⟨List.nodup_nil, ?_, ?_⟩ <;> intro q hq <;> cases hq
  | cons hd tl ih =>
    obtain ⟨ty, row⟩ := hd
    intro seen res h
    simp only [processRows] at h
    by_cases hs : normKw row.query ∈ seen
    · rw [if_pos hs] at h
      obtain ⟨hnd, hsn, hprov⟩ := ih seen res h
      refine ⟨hnd, hsn, ?_⟩
      intro q hq
      obtain ⟨p, hfind, hpq, hps⟩ := hprov q hq
      have hneq : (normKw row.query == normKw q.keyword) = false := by
        rw [beq_eq_false_iff_ne]
        intro hEq
        exact (hsn q hq) (hEq ▸ hs)
      refine ⟨p, ?_, hpq, hps⟩
      simp only [List.find?, hneq]
      exact hfind
    · rw [if_neg hs] at h
      cases hsc : rowScore ty row.value with
      | error e =>
        rw [hsc] at h
        simp at h
      | ok sc =>
        rw [hsc] at h
        cases hrest : processRows now tl (normKw row.query :: seen) with
        | error e =>
          rw [hrest] at h
          simp only [Except.map] at h
          simp at h
        | ok res' =>
          rw [hrest] at h
          simp only [Except.map] at h
          injection h with h
          subst h
          obtain ⟨hnd, hsn, hprov⟩ := ih (normKw row.query :: seen) res' hrest
          refine ⟨?_, ?_, ?_⟩
          · rw [List.map_cons, List.nodup_cons]
            refine ⟨?_, hnd⟩
            rw [List.mem_map]
            rintro ⟨q, hq, hEq⟩
            exact (hsn q hq) (by rw [hEq]; exact List.mem_cons_self _ _)
          · intro q hq
            rcases List.mem_cons.mp hq with hq | hq
            · subst hq
              exact hs
            · intro hmem
              exact (hsn q hq) (List.mem_cons_of_mem _ hmem)
          · intro q hq
            rcases List.mem_cons.mp hq with hq | hq
            · subst hq
              refine ⟨(ty, row), ?_, rfl, hsc⟩
              simp only [List.find?, beq_self_eq_true]
            · obtain ⟨p, hfind, hpq, hps⟩ := hprov q hq
              have hneq : (normKw row.query == normKw q.keyword) = false := by
                rw [beq_eq_false_iff_ne]
                intro hEq
                exact (hsn q hq) (hEq ▸ List.mem_cons_self _ _)
              refine ⟨p, ?_, hpq, hps⟩
              simp only [List.find?, hneq]
              exact hfind

theorem length_le_insertNew (l : List String) (x : String) :
    l.length ≤ (insertNew l x).length ∧ (insertNew l x).length ≤ l.length + 1 := by
  unfold insertNew
  by_cases h : x ∈ l <;> simp [h]

theorem length_foldl_insertNew (xs : List String) :
    ∀ acc : List String, acc.length ≤ (xs.foldl insertNew acc).length ∧
      (xs.foldl insertNew acc).length ≤ acc.length + xs.length := by
  induction xs with
  | nil => intro acc; simp
  | cons x t ih =>
    intro acc
    rw [List.foldl_cons]
    have h1 := length_le_insertNew acc x
    have h2 := ih (insertNew acc x)
    refine ⟨le_trans h1.1 h2.1, ?_⟩
    have := h2.2
    simp only [List.length_cons]
    omega

theorem discovery_fold_lower (sug : String → SuggestResult) (seeds : List String) :
    ∀ acc : List String,
      acc.length ≤ (seeds.foldl (fun acc seed =>
        match sug seed with
        | .resp 200 (some suggestions) => (suggestions.take 2).foldl insertNew acc
        | _ => acc) acc).length := by
  induction seeds with
  | nil => intro acc; simp
  | cons s t ih =>
    intro acc
    rw [List.foldl_cons]
    refine le_trans ?_ (ih _)
    split
    · exact (length_foldl_insertNew _ _).1
    · exact le_refl _

theorem discovery_fold_upper (sug : String → SuggestResult) (seeds : List String) :
    ∀ acc : List String,
      (seeds.foldl (fun acc seed =>
        match sug seed with
        | .resp 200 (some suggestions) => (suggestions.take 2).foldl insertNew acc
        | _ => acc) acc).length ≤ acc.length + 2 * seeds.length := by
  induction seeds with
  | nil => intro acc; simp
  | cons s t ih =>
    intro acc
    rw [List.foldl_cons]
    refine le_trans (ih _) ?_
    have hstep : (match sug s with
        | .resp 200 (some suggestions) => (suggestions.take 2).foldl insertNew acc
        | _ => acc).length ≤ acc.length + 2 := by
      split
      · refine le_trans (length_foldl_insertNew _ _).2 ?_
        have := List.length_take_le 2 (by assumption : List String)
        omega
      · omega
    simp only [List.length_cons]
    omega

/-- C10: `fetch_dynamic_keywords` always returns between 5 and 10
keywords — in particular never an empty list: the five distinct seed
terms enter the accumulator before any auxiliary lookup, so the result
has at least 5 entries whatever the lookup outcomes, and the final
truncation keeps at most 10. -/
theorem fetch_dynamic_keywords_size (sug : String → SuggestResult) :
    5 ≤ (fetch_dynamic_keywords sug).length ∧ (fetch_dynamic_keywords sug).length ≤ 10 := by
  have hinit : (seed_terms.foldl insertNew []).length = 5 := by decide
  have hlow := discovery_fold_lower sug (seed_terms.take 3) (seed_terms.foldl insertNew [])
  rw [hinit] at hlow
  unfold fetch_dynamic_keywords
  constructor
  · rw [List.length_take]
    exact le_min (by norm_num) hlow
  · exact List.length_take_le _ _

/-- C8: `can_make_request` returns true exactly when the persisted
last-request timestamp is absent, unreadable, or at least
`MIN_REQUEST_INTERVAL` (60 s) old; consequently after
`record_request_time` it returns false until 60 seconds elapse, and true
from then on. -/
theorem can_make_request_spec (now t0 d : Rat) (f : LastReq) :
    (can_make_request now f = true ↔
      f = .absent ∨ f = .corrupt ∨ ∃ t, f = .val t ∧ MIN_REQUEST_INTERVAL ≤ now - t) ∧
    (can_make_request (t0 + d) (record_request_time t0) = true ↔ MIN_REQUEST_INTERVAL ≤ d) := by
  constructor
  · cases f with
    | absent => simp [can_make_request]
    | corrupt => simp [can_make_request]
    | val t =>
      simp only [can_make_request]
      by_cases h : now - t < MIN_REQUEST_INTERVAL
      · rw [if_pos h]
        simp only [Bool.false_eq_true, false_iff]
        rintro (hA | hA | ⟨t2, hEq, hle⟩)
        · cases hA
        · cases hA
        · injection hEq with hEq
          rw [← hEq] at hle
          exact absurd hle (not_le.mpr h)
      · rw [if_neg h]
        constructor
        · intro _
          exact Or.inr (Or.inr ⟨t, rfl, not_lt.mp h⟩)
        · intro _
          rfl
  · simp only [record_request_time, can_make_request, add_sub_cancel_left]
    by_cases h : d < MIN_REQUEST_INTERVAL
    · rw [if_pos h]
      simp only [Bool.false_eq_true, false_iff]
      exact not_le.mpr h
    · rw [if_neg h]
      simp only [true_iff]
      exact not_lt.mp h

/-- Witness for C8: sixty seconds after a recorded request the throttle
opens again. -/
theorem can_make_request_spec_witness :
    can_make_request (0 + 60) (record_request_time 0) = true :=
  (can_make_request_spec 0 0 60 .absent).2.mpr (by norm_num [MIN_REQUEST_INTERVAL])

/-- A sample payload used by the cache round-trip counterexample. -/
def sampleRec : TrendRecord :=
  { keyword := "exam", score := 50, type := "rising", source := "google_trends", timestamp := 0 }

/-- C6 counterexample: an immediate round trip with `maxAge = 0` misses,
because the freshness test of `get_cached_results` is strict
(`age < max_age_hours * 3600` with age 0), so the claim fails at
`maxAge = 0` even though `maxAge ≥ 0`. -/
theorem cache_roundtrip_zero_age_cex :
    get_cached_results (save_to_cache [] 0 "google_trends_IN_now 1-d" [sampleRec]) 0
        "google_trends_IN_now 1-d" 0 = none ∧
    get_cached_results (save_to_cache [] 0 "google_trends_IN_now 1-d" [sampleRec]) 0
        "google_trends_IN_now 1-d" 0 ≠ some [sampleRec] := by
  have h : get_cached_results (save_to_cache [] 0 "google_trends_IN_now 1-d" [sampleRec]) 0
      "google_trends_IN_now 1-d" 0 = none := by
    unfold get_cached_results save_to_cache cacheLookup
    simp only [List.filter_nil, List.find?, beq_self_eq_true, Option.map_some]
    norm_num
  exact ⟨h, by rw [h]; intro hc; cases hc⟩

/-- C6 (amended): the cache round trip holds for every strictly positive
max age: `save_to_cache` then `get_cached_results` at the same instant
returns the payload unchanged whenever `maxAge > 0`. -/
theorem cache_roundtrip_pos_age (c : Cache) (now : Rat) (key : String)
    (rs : List TrendRecord) (maxAge : Rat) (h : 0 < maxAge) :
    get_cached_results (save_to_cache c now key rs) now key maxAge = some rs := by
  unfold get_cached_results save_to_cache cacheLookup
  simp only [List.find?, beq_self_eq_true, Option.map]
  rw [if_pos]
  rw [sub_self]
  have h36 : (0 : Rat) < 3600 := by norm_num
  exact mul_pos h h36

/-- Witness for C6 (amended) at a concrete key, payload and max age. -/
theorem cache_roundtrip_pos_age_witness :
    get_cached_results (save_to_cache [] 0 "google_trends_IN_now 1-d" [sampleRec]) 0
        "google_trends_IN_now 1-d" 1 = some [sampleRec] :=
  cache_roundtrip_pos_age [] 0 "google_trends_IN_now 1-d" [sampleRec] 1 (by norm_num)

theorem buildTrendingRecords_mem (now : Rat) (raw : List String) :
    ∀ (idx : Nat) (q : TrendRecord), q ∈ buildTrendingRecords now idx raw →
      ∃ j k, raw.get? j = some k ∧ eduMatch k = true ∧
        q = { keyword := k, score := ((100 - ((idx + j : Nat) : Int) : Int) : Rat),
              type := "trending", source := "google_trending", timestamp := now } := by
  induction raw with
  | nil =>
    intro idx q hq
    cases hq
  | cons k rest ih =>
    intro idx q hq
    rw [buildTrendingRecords] at hq
    by_cases he : eduMatch k = true
    · rw [if_pos he] at hq
      rcases List.mem_cons.mp hq with hq | hq
      · refine ⟨0, k, rfl, he, ?_⟩
        rw [hq]
        simp
      · obtain ⟨j, k2, hg, hm, hEq⟩ := ih (idx + 1) q hq
        have hn : (idx + 1) + j = idx + (j + 1) := by omega
        rw [hn] at hEq
        exact ⟨j + 1, k2, hg, hm, hEq⟩
    · rw [if_neg he] at hq
      obtain ⟨j, k2, hg, hm, hEq⟩ := ih (idx + 1) q hq
      have hn : (idx + 1) + j = idx + (j + 1) := by omega
      rw [hn] at hEq
      exact ⟨j + 1, k2, hg, hm, hEq⟩

/-- The environment of the spec scenario for the trending path: cache
miss, constructor succeeds, raw trending list as in the spec. -/
def envC5 : TrendingEnv :=
  { now := 0, cache := [], ctorErr := none,
    trending := .ok ["iPhone 16 launch", "JEE Main result 2025", "Cricket score"] }

/-- C5 counterexample: on the scenario raw list, the only education
record is the JEE entry, but its score is `100 - 1 = 99` (its rank in
the RAW list), not the claimed `100`: `enumerate` runs over the raw
trending list before the education filter is applied. -/
theorem get_trending_topics_rank_cex :
    (get_trending_topics "IN" envC5).1 ≠
      .ok [{ keyword := "JEE Main result 2025", score := 100, type := "trending",
             source := "google_trending", timestamp := 0 }] ∧
    (get_trending_topics "IN" envC5).1 =
      .ok [{ keyword := "JEE Main result 2025", score := 99, type := "trending",
             source := "google_trending", timestamp := 0 }] :=
  ⟨by decide, by decide⟩

/-- C5 (amended): on a cache miss `get_trending_topics` keeps exactly the
entries containing a fixed education substring (case-insensitively) and
assigns `score = 100 - idx` where `idx` is the rank of the entry in the
RAW provider list (not among the kept entries); on the raw list
`[iPhone 16 launch, JEE Main result 2025, Cricket score]` it returns only
the JEE record, with score 99. -/
theorem get_trending_topics_rank_from_raw (geo : String) (env : TrendingEnv)
    (raw : List String) (q : TrendRecord)
    (hmiss : truthy (get_cached_results env.cache env.now ("trending_topics_" ++ geo) (1 / 2)) =
      false)
    (hctor : env.ctorErr = none)
    (htr : env.trending = .ok raw)
    (hq : q ∈ buildTrendingRecords env.now 0 raw) :
    (get_trending_topics geo env).1 = .ok (buildTrendingRecords env.now 0 raw) ∧
    (∃ j k, raw.get? j = some k ∧ eduMatch k = true ∧
      q = { keyword := k, score := ((100 - (j : Int) : Int) : Rat), type := "trending",
            source := "google_trending", timestamp := env.now }) ∧
    (get_trending_topics "IN" envC5).1 =
      .ok [{ keyword := "JEE Main result 2025", score := 99, type := "trending",
             source := "google_trending", timestamp := 0 }] := by
  refine ⟨?_, ?_, by decide⟩
  · unfold get_trending_topics
    simp only [hmiss, hctor, htr, Bool.false_eq_true, if_false]
  · obtain ⟨j, k, hg, hm, hEq⟩ := buildTrendingRecords_mem env.now raw 0 q hq
    rw [Nat.zero_add] at hEq
    exact ⟨j, k, hg, hm, hEq⟩

/-- Witness for C5 (amended): the scenario environment itself. -/
theorem get_trending_topics_rank_from_raw_witness :
    (get_trending_topics "IN" envC5).1 =
      .ok (buildTrendingRecords envC5.now 0
        ["iPhone 16 launch", "JEE Main result 2025", "Cricket score"]) ∧
    (∃ j k, ["iPhone 16 launch", "JEE Main result 2025", "Cricket score"].get? j = some k ∧
      eduMatch k = true ∧
      ({ keyword := "JEE Main result 2025", score := 99, type := "trending",
         source := "google_trending", timestamp := 0 } : TrendRecord) =
        { keyword := k, score := ((100 - (j : Int) : Int) : Rat), type := "trending",
          source := "google_trending", timestamp := envC5.now }) ∧
    (get_trending_topics "IN" envC5).1 =
      .ok [{ keyword := "JEE Main result 2025", score := 99, type := "trending",
             source := "google_trending", timestamp := 0 }] :=
  get_trending_topics_rank_from_raw "IN" envC5
    ["iPhone 16 launch", "JEE Main result 2025", "Cricket score"]
    { keyword := "JEE Main result 2025", score := 99, type := "trending",
      source := "google_trending", timestamp := 0 }
    (by decide) (by decide) (by decide) (by decide)

/-- The call hands a list back to its caller (no exception escapes). -/
def returnsNormally (r : Except PyErr (List TrendRecord)) : Bool :=
  match r with
  | .ok _ => true
  | .error _ => false

theorem handleFetchError_returnsNormally (env : FetchEnv) (k : String) (e : PyErr) :
    returnsNormally (handleFetchError env k e).1 = true := by
  unfold handleFetchError
  by_cases h : (strContains e.msg "429" || strContains (lowerStr e.msg) "rate") = true
  · simp only [h, if_true]
    by_cases h2 : truthy (get_cached_results env.cache env.now k 24) = true
    · simp only [h2, if_true]
      rfl
    · rw [Bool.not_eq_true] at h2
      simp only [h2, Bool.false_eq_true, if_false]
      rfl
  · rw [Bool.not_eq_true] at h
    simp only [h, Bool.false_eq_true, if_false]
    rfl

theorem fetchTryBlock_returnsNormally (env : FetchEnv) (k : String) (kws : List String) :
    returnsNormally (fetchTryBlock env k kws).1 = true := by
  unfold fetchTryBlock
  cases hb : env.buildPayload with
  | some e =>
    simp only []
    exact handleFetchError_returnsNormally env k e
  | none =>
    simp only []
    cases hd : (rqLoop env.attempts [0, 1, 2]).1 with
    | none =>
      simp only []
      rfl
    | some data =>
      simp only []
      cases hp : processRows env.now (flatRows data) [] with
      | error e =>
        simp only []
        exact handleFetchError_returnsNormally env k e
      | ok results =>
        simp only []
        by_cases hres : results.isEmpty = true
        · simp only [hres, if_true]
          rfl
        · rw [Bool.not_eq_true] at hres
          simp only [hres, Bool.false_eq_true, if_false]
          rfl

theorem get_trending_topics_returnsNormally (geo : String) (env : TrendingEnv) :
    returnsNormally (get_trending_topics geo env).1 = true := by
  unfold get_trending_topics
  by_cases h0 : truthy (get_cached_results env.cache env.now ("trending_topics_" ++ geo)
      (1 / 2)) = true
  · simp only [h0, if_true]
    rfl
  · rw [Bool.not_eq_true] at h0
    simp only [h0, Bool.false_eq_true, if_false]
    cases hc : env.ctorErr with
    | some e => rfl
    | none =>
      simp only []
      cases ht : env.trending with
      | error e => rfl
      | ok raw => rfl

/-- The environment of the C4 counterexample: the primary path is reached
and the `TrendReq` construction — which sits before the guarded `try:`
block — raises an exception that is not a `TypeError`. -/
def envC4 : FetchEnv :=
  { now := 0, cache := [], lastRequest := .absent,
    suggestions := fun _ => .fails,
    trendReq1 := some ⟨false, "connection reset by peer"⟩, trendReq2 := none,
    buildPayload := none,
    attempts := fun _ => .error ⟨false, "x"⟩,
    interestOverTime := .error ⟨false, "x"⟩ }

/-- C4 counterexample: when the provider-client construction raises an
error other than a `TypeError` (it sits outside the guarded `try:`
block), `fetch_google_trends` propagates the exception to its caller
instead of returning a list. -/
theorem fetch_ctor_error_propagates_cex :
    (fetch_google_trends "IN" "now 1-d" true 1 envC4).1 =
      .error ⟨false, "connection reset by peer"⟩ ∧
    returnsNormally (fetch_google_trends "IN" "now 1-d" true 1 envC4).1 = false :=
  ⟨by decide, by decide⟩

/-- C4 (amended): `get_trending_topics` never propagates an exception;
`fetch_google_trends` never propagates one either, except out of the
provider-client construction window (first `TrendReq` raising a
non-`TypeError`, or the second construction raising after a `TypeError`):
whenever that construction completes, the call returns a (possibly
empty) list for every behaviour of the provider, auxiliary lookup, and
cache/throttle files. -/
theorem fetch_no_propagation_outside_ctor (geo timeframe : String) (use_cache : Bool)
    (cache_hours : Rat) (env : FetchEnv) (geo2 : String) (tenv : TrendingEnv)
    (hk : ctorFine env = true) :
    returnsNormally (fetch_google_trends geo timeframe use_cache cache_hours env).1 = true ∧
    returnsNormally (get_trending_topics geo2 tenv).1 = true := by
  refine ⟨?_, get_trending_topics_returnsNormally geo2 tenv⟩
  unfold fetch_google_trends
  by_cases h0 : (use_cache && truthy (get_cached_results env.cache env.now
      (googleCacheKey geo timeframe) cache_hours)) = true
  · simp only [h0, if_true]
    rfl
  · rw [Bool.not_eq_true] at h0
    simp only [h0, Bool.false_eq_true, if_false]
    by_cases h1 : (!can_make_request env.now env.lastRequest) = true
    · simp only [h1, if_true]
      by_cases h2 : truthy (get_cached_results env.cache env.now
          (googleCacheKey geo timeframe) 24) = true
      · simp only [h2, if_true]
        rfl
      · rw [Bool.not_eq_true] at h2
        simp only [h2, Bool.false_eq_true, if_false]
        rfl
    · rw [Bool.not_eq_true] at h1
      simp only [h1, Bool.false_eq_true, if_false]
      cases hr1 : env.trendReq1 with
      | none =>
        simp only []
        exact fetchTryBlock_returnsNormally env _ _
      | some e =>
        have hk' : e.isTypeError = true ∧ env.trendReq2 = none := by
          unfold ctorFine at hk
          rw [hr1] at hk
          simp only [Bool.and_eq_true, Option.isNone_iff_eq_none] at hk
          exact hk
        simp only [hk'.1, if_true, hk'.2]
        exact fetchTryBlock_returnsNormally env _ _

/-- The witness environment for C4 (amended): the constructor succeeds
and the guarded body raises, which is swallowed. -/
def envC4w : FetchEnv :=
  { now := 0, cache := [], lastRequest := .absent,
    suggestions := fun _ => .fails,
    trendReq1 := none, trendReq2 := none,
    buildPayload := some ⟨false, "provider exploded"⟩,
    attempts := fun _ => .error ⟨false, "x"⟩,
    interestOverTime := .error ⟨false, "x"⟩ }

/-- Witness for C4 (amended) at concrete environments. -/
theorem fetch_no_propagation_outside_ctor_witness :
    returnsNormally (fetch_google_trends "IN" "now 1-d" true 1 envC4w).1 = true ∧
    returnsNormally (get_trending_topics "IN"
      { now := 0, cache := [], ctorErr := some ⟨false, "boom"⟩,
        trending := .error ⟨false, "boom"⟩ }).1 = true :=
  fetch_no_propagation_outside_ctor "IN" "now 1-d" true 1 envC4w "IN"
    { now := 0, cache := [], ctorErr := some ⟨false, "boom"⟩,
      trending := .error ⟨false, "boom"⟩ } (by decide)

/-- The environment of the C1 counterexample: primary query fails on all
attempts, discovery returned both `exam` (a seed) and the suggestion
`Exam`, and both carry positive interest in the fallback time slice. -/
def envC1 : FetchEnv :=
  { now := 0, cache := [], lastRequest := .absent,
    suggestions := fun s => if s == "education" then .resp 200 (some ["Exam"]) else .fails,
    trendReq1 := none, trendReq2 := none, buildPayload := none,
    attempts := fun _ => .error ⟨false, "boom"⟩,
    interestOverTime := .ok (some [("exam", 50), ("Exam", 40)]) }

/-- C1 counterexample: a list returned by `fetch_google_trends` through
the fallback path carries `exam` and `Exam`, which coincide after
lowercasing and trimming — the uniqueness invariant does not hold for
every returned list, only for the primary-path accumulation (the
fallback loop iterates the discovered keywords, which the set dedupes
only by exact string equality). -/
theorem fetch_fallback_duplicate_keywords_cex :
    (fetch_google_trends "IN" "now 1-d" true 1 envC1).1 =
      .ok [{ keyword := "exam", score := 50, type := "interest",
             source := "google_trends_fallback", timestamp := 0 },
           { keyword := "Exam", score := 40, type := "interest",
             source := "google_trends_fallback", timestamp := 0 }] ∧
    ¬ (((fetchedList (fetch_google_trends "IN" "now 1-d" true 1 envC1).1).map
        (fun q => normKw q.keyword)).Nodup) :=
  ⟨by decide, by decide⟩

/-- C1 (amended): every result list returned through the primary-query
path has keywords unique under lowercased-trimmed comparison, and each
kept record is built from the first row carrying its normalized keyword
(later duplicates are dropped); lists returned from the cache or the
fallback path are not covered by the invariant. -/
theorem fetch_primary_unique_keywords (geo timeframe : String) (use_cache : Bool)
    (cache_hours : Rat) (env : FetchEnv) (data : ProviderData) (res0 : List TrendRecord)
    (q : TrendRecord)
    (hc : (use_cache && truthy (get_cached_results env.cache env.now
        (googleCacheKey geo timeframe) cache_hours)) = false)
    (ht : can_make_request env.now env.lastRequest = true)
    (hk : ctorFine env = true)
    (hb : env.buildPayload = none)
    (hd : (rqLoop env.attempts [0, 1, 2]).1 = some data)
    (hp : processRows env.now (flatRows data) [] = .ok res0)
    (hne : res0.isEmpty = false)
    (hq : q ∈ res0) :
    (fetch_google_trends geo timeframe use_cache cache_hours env).1 = .ok (sortDesc res0) ∧
    ((sortDesc res0).map (fun r2 => normKw r2.keyword)).Nodup ∧
    ∃ p : RType × ProviderRow,
      List.find? (fun pr => normKw pr.2.query == normKw q.keyword) (flatRows data) = some p ∧
      p.2.query = q.keyword := by
  obtain ⟨hnd, _, hprov⟩ := processRows_invariant env.now (flatRows data) [] res0 hp
  refine ⟨?_, ?_, ?_⟩
  · rw [fetch_primary_eq geo timeframe use_cache cache_hours env data res0 hc ht hk hb hd hp hne]
  · exact (List.Perm.nodup_iff ((sortDesc_perm res0).map _)).mpr hnd
  · obtain ⟨p, hfind, hpq, _⟩ := hprov q hq
    exact ⟨p, hfind, hpq⟩

/-- Data and environment for the C1 witness: the provider repeats the
`exam result` query with different capitalisation. -/
def dataC1w : ProviderData :=
  [("education", { rising := some [⟨"Exam Result", .num 50⟩, ⟨"exam result", .num 60⟩,
                                   ⟨"jee main", .num 80⟩], top := none })]

def envC1w : FetchEnv :=
  { now := 0, cache := [], lastRequest := .absent,
    suggestions := fun _ => .fails,
    trendReq1 := none, trendReq2 := none, buildPayload := none,
    attempts := fun n => if n == 0 then .ok dataC1w else .error ⟨false, "x"⟩,
    interestOverTime := .error ⟨false, "x"⟩ }

/-- Witness for C1 (amended): the duplicate row is dropped and the first
occurrence (`Exam Result`, score 50) is the one kept. -/
theorem fetch_primary_unique_keywords_witness :
    (fetch_google_trends "IN" "now 1-d" true 1 envC1w).1 =
      .ok (sortDesc [{ keyword := "Exam Result", score := 50, type := "rising",
                       source := "google_trends", timestamp := 0 },
                     { keyword := "jee main", score := 80, type := "rising",
                       source := "google_trends", timestamp := 0 }]) ∧
    ((sortDesc [{ keyword := "Exam Result", score := 50, type := "rising",
                  source := "google_trends", timestamp := 0 },
                { keyword := "jee main", score := 80, type := "rising",
                  source := "google_trends", timestamp := 0 }]).map
        (fun r2 => normKw r2.keyword)).Nodup ∧
    ∃ p : RType × ProviderRow,
      List.find? (fun pr => normKw pr.2.query == normKw "Exam Result") (flatRows dataC1w) =
        some p ∧
      p.2.query = "Exam Result" :=
  fetch_primary_unique_keywords "IN" "now 1-d" true 1 envC1w dataC1w
    [{ keyword := "Exam Result", score := 50, type := "rising",
       source := "google_trends", timestamp := 0 },
     { keyword := "jee main", score := 80, type := "rising",
       source := "google_trends", timestamp := 0 }]
    { keyword := "Exam Result", score := 50, type := "rising",
      source := "google_trends", timestamp := 0 }
    (by decide) (by decide) (by decide) (by decide) (by decide) (by decide) (by decide)
    (by decide)

/-- C2: every result list returned by `fetch_google_trends` from the
primary-query path equals the stable descending sort of the accumulated
records: scores are non-increasing, and the records of any given score
appear in exactly their discovery order. -/
theorem fetch_primary_sorted_stable (geo timeframe : String) (use_cache : Bool)
    (cache_hours : Rat) (env : FetchEnv) (data : ProviderData) (res0 : List TrendRecord)
    (s : Rat)
    (hc : (use_cache && truthy (get_cached_results env.cache env.now
        (googleCacheKey geo timeframe) cache_hours)) = false)
    (ht : can_make_request env.now env.lastRequest = true)
    (hk : ctorFine env = true)
    (hb : env.buildPayload = none)
    (hd : (rqLoop env.attempts [0, 1, 2]).1 = some data)
    (hp : processRows env.now (flatRows data) [] = .ok res0)
    (hne : res0.isEmpty = false) :
    (fetch_google_trends geo timeframe use_cache cache_hours env).1 = .ok (sortDesc res0) ∧
    (sortDesc res0).Pairwise scoreGe ∧
    (sortDesc res0).filter (fun q => decide (q.score = s)) =
      res0.filter (fun q => decide (q.score = s)) := by
  refine ⟨?_, sortDesc_pairwise res0, sortDesc_filter_score res0 s⟩
  rw [fetch_primary_eq geo timeframe use_cache cache_hours env data res0 hc ht hk hb hd hp hne]

/-- Data and environment for the C2 witness: two records tie at score 10
around a higher-scored record. -/
def dataC2w : ProviderData :=
  [("education", { rising := some [⟨"a term", .num 10⟩, ⟨"b term", .num 20⟩,
                                   ⟨"c term", .num 10⟩], top := none })]

def envC2w : FetchEnv :=
  { now := 0, cache := [], lastRequest := .absent,
    suggestions := fun _ => .fails,
    trendReq1 := none, trendReq2 := none, buildPayload := none,
    attempts := fun n => if n == 0 then .ok dataC2w else .error ⟨false, "x"⟩,
    interestOverTime := .error ⟨false, "x"⟩ }

/-- Witness for C2 at a concrete environment with a score tie. -/
theorem fetch_primary_sorted_stable_witness :
    (fetch_google_trends "IN" "now 1-d" true 1 envC2w).1 =
      .ok (sortDesc [{ keyword := "a term", score := 10, type := "rising",
                       source := "google_trends", timestamp := 0 },
                     { keyword := "b term", score := 20, type := "rising",
                       source := "google_trends", timestamp := 0 },
                     { keyword := "c term", score := 10, type := "rising",
                       source := "google_trends", timestamp := 0 }]) ∧
    (sortDesc [{ keyword := "a term", score := 10, type := "rising",
                 source := "google_trends", timestamp := 0 },
               { keyword := "b term", score := 20, type := "rising",
                 source := "google_trends", timestamp := 0 },
               { keyword := "c term", score := 10, type := "rising",
                 source := "google_trends", timestamp := 0 }]).Pairwise scoreGe ∧
    (sortDesc [{ keyword := "a term", score := 10, type := "rising",
                 source := "google_trends", timestamp := 0 },
               { keyword := "b term", score := 20, type := "rising",
                 source := "google_trends", timestamp := 0 },
               { keyword := "c term", score := 10, type := "rising",
                 source := "google_trends", timestamp := 0 }]).filter
        (fun q => decide (q.score = 10)) =
      [{ keyword := "a term", score := 10, type := "rising",
         source := "google_trends", timestamp := 0 },
       { keyword := "b term", score := 20, type := "rising",
         source := "google_trends", timestamp := 0 },
       { keyword := "c term", score := 10, type := "rising",
         source := "google_trends", timestamp := 0 }].filter
        (fun q => decide (q.score = 10)) :=
  fetch_primary_sorted_stable "IN" "now 1-d" true 1 envC2w dataC2w
    [{ keyword := "a term", score := 10, type := "rising",
       source := "google_trends", timestamp := 0 },
     { keyword := "b term", score := 20, type := "rising",
       source := "google_trends", timestamp := 0 },
     { keyword := "c term", score := 10, type := "rising",
       source := "google_trends", timestamp := 0 }] 10
    (by decide) (by decide) (by decide) (by decide) (by decide) (by decide) (by decide)

/-- Provider data of the C3 counterexample: one group whose `top` table
has a row with the `Breakout` sentinel. -/
def dataC3 : ProviderData :=
  [("education", { rising := some [], top := some [⟨"exam result", .breakout⟩] })]

/-- Environment of the C3 counterexample: the primary query succeeds with
`dataC3` on the first attempt. -/
def envC3 : FetchEnv :=
  { now := 0, cache := [], lastRequest := .absent,
    suggestions := fun _ => .fails,
    trendReq1 := none, trendReq2 := none, buildPayload := none,
    attempts := fun n => if n == 0 then .ok dataC3 else .error ⟨false, "x"⟩,
    interestOverTime := .error ⟨false, "x"⟩ }

/-- C3 counterexample: a `top` row with value `Breakout` does NOT yield
`score = 100` — the sentinel test is applied only to `rising` rows, so
`float("Breakout")` raises, the row loop aborts, and the call returns
`[]` (the error text matches neither `429` nor `rate`): no record for
the row exists at all. -/
theorem fetch_top_breakout_cex :
    processRows envC3.now (flatRows dataC3) [] = .error floatBreakoutErr ∧
    (fetch_google_trends "IN" "now 1-d" true 1 envC3).1 = .ok [] ∧
    envC3.attempts 0 = .ok dataC3 ∧
    dataC3 = [("education", { rising := some [], top := some [⟨"exam result", .breakout⟩] })] :=
  ⟨by decide, by decide, by decide, rfl⟩

/-- C3 (amended): whenever the row loop completes, every produced record
takes its score from its generating row — the first row carrying its
normalized keyword — via the per-row rule: a `rising` row maps the
`Breakout` sentinel to 100 and a numeric value to itself; a `top` row
maps a numeric value to itself; a `top` row carrying `Breakout` has no
score — it raises, so the loop never completes on it (counterexample
theorem). -/
theorem processRows_rowScore (now : Rat) (rows : List (RType × ProviderRow))
    (res : List TrendRecord) (q : TrendRecord)
    (hp : processRows now rows [] = .ok res) (hq : q ∈ res) :
    ∃ p : RType × ProviderRow,
      List.find? (fun pr => normKw pr.2.query == normKw q.keyword) rows = some p ∧
      p.2.query = q.keyword ∧ rowScore p.1 p.2.value = .ok q.score :=
  (processRows_invariant now rows [] res hp).2.2 q hq

/-- Provider rows for the C3 witness: a rising `Breakout` row scoring
100, a rising numeric row, and a top numeric row. -/
def dataC3w : ProviderData :=
  [("education", { rising := some [⟨"exam result", .breakout⟩, ⟨"neet 2025", .num 75⟩],
                   top := some [⟨"jee", .num 40⟩] })]

/-- Witness for C3 (amended): the rising `Breakout` record scores 100 and
its generating row is found. -/
theorem processRows_rowScore_witness :
    ∃ p : RType × ProviderRow,
      List.find? (fun pr => normKw pr.2.query == normKw "exam result") (flatRows dataC3w) =
        some p ∧
      p.2.query = "exam result" ∧ rowScore p.1 p.2.value = .ok 100 :=
  processRows_rowScore 0 (flatRows dataC3w)
    [{ keyword := "exam result", score := 100, type := "rising",
       source := "google_trends", timestamp := 0 },
     { keyword := "neet 2025", score := 75, type := "rising",
       source := "google_trends", timestamp := 0 },
     { keyword := "jee", score := 40, type := "top",
       source := "google_trends", timestamp := 0 }]
    { keyword := "exam result", score := 100, type := "rising",
      source := "google_trends", timestamp := 0 }
    (by decide) (by decide)

/-- C7 (amended): a fresh cache hit short-circuits `fetch_google_trends`
only when the cached payload is NON-empty: `if cached:` is Python
truthiness, and an empty list is falsy, so a fresh cached `[]` is
treated as a miss and the provider is contacted (counterexample
theorem). On a non-empty fresh hit the call returns the payload
unchanged for every provider behaviour — no provider contact. -/
theorem fetch_fresh_nonempty_cache_hit (geo timeframe : String) (cache_hours : Rat)
    (env : FetchEnv) (x : TrendRecord) (l : List TrendRecord)
    (hhit : get_cached_results env.cache env.now (googleCacheKey geo timeframe) cache_hours =
      some (x :: l)) :
    fetch_google_trends geo timeframe true cache_hours env = (.ok (x :: l), env.cache) := by
  unfold fetch_google_trends
  simp only [hhit, truthy, truthyGet, Bool.and_self, if_true]

/-- Provider data of the C7 counterexample. -/
def dataC7 : ProviderData :=
  [("education", { rising := some [⟨"jee main", .num 55⟩], top := none })]

/-- Environment of the C7 counterexample: the cache holds a FRESH entry
whose payload is the empty list, and the provider has data. -/
def envC7 : FetchEnv :=
  { now := 0, cache := [("google_trends_IN_now 1-d", .good 0 [])], lastRequest := .absent,
    suggestions := fun _ => .fails,
    trendReq1 := none, trendReq2 := none, buildPayload := none,
    attempts := fun n => if n == 0 then .ok dataC7 else .error ⟨false, "x"⟩,
    interestOverTime := .error ⟨false, "x"⟩ }

/-- C7 counterexample: the cache read returns a fresh `some []`, yet the
call does not return it — it proceeds to the provider and returns the
provider-derived record instead, because `if cached:` is falsy on an
empty list. -/
theorem fetch_empty_cached_payload_cex :
    get_cached_results envC7.cache envC7.now (googleCacheKey "IN" "now 1-d") 1 = some [] ∧
    (fetch_google_trends "IN" "now 1-d" true 1 envC7).1 =
      .ok [{ keyword := "jee main", score := 55, type := "rising",
             source := "google_trends", timestamp := 0 }] := by
  have hlook : cacheLookup envC7.cache (googleCacheKey "IN" "now 1-d") =
      some (.good 0 []) := by decide
  have hget : get_cached_results envC7.cache envC7.now (googleCacheKey "IN" "now 1-d") 1 =
      some [] := by
    unfold get_cached_results
    rw [hlook]
    norm_num [envC7]
  refine ⟨hget, ?_⟩
  have hc : (true && truthy (get_cached_results envC7.cache envC7.now
      (googleCacheKey "IN" "now 1-d") 1)) = false := by
    rw [hget]
    rfl
  have heq := fetch_primary_eq "IN" "now 1-d" true 1 envC7 dataC7
    [{ keyword := "jee main", score := 55, type := "rising",
       source := "google_trends", timestamp := 0 }]
    hc (by decide) (by decide) (by decide) (by decide) (by decide) (by decide)
  rw [heq]
  decide

/-- Cache and environment for the C7 witness: a fresh non-empty payload. -/
def envC7w : FetchEnv :=
  { now := 0,
    cache := [("google_trends_IN_now 1-d",
               .good 0 [{ keyword := "upsc", score := 70, type := "rising",
                          source := "google_trends", timestamp := 0 }])],
    lastRequest := .absent,
    suggestions := fun _ => .fails,
    trendReq1 := none, trendReq2 := none, buildPayload := none,
    attempts := fun n => if n == 0 then .ok dataC7 else .error ⟨false, "x"⟩,
    interestOverTime := .error ⟨false, "x"⟩ }

/-- Witness for C7 (amended): the fresh non-empty payload is returned
as-is, although the provider would have produced a different list. -/
theorem fetch_fresh_nonempty_cache_hit_witness :
    fetch_google_trends "IN" "now 1-d" true 1 envC7w =
      (.ok [{ keyword := "upsc", score := 70, type := "rising",
              source := "google_trends", timestamp := 0 }], envC7w.cache) :=
  fetch_fresh_nonempty_cache_hit "IN" "now 1-d" 1 envC7w
    { keyword := "upsc", score := 70, type := "rising",
      source := "google_trends", timestamp := 0 } []
    (by
      have hlook : cacheLookup envC7w.cache (googleCacheKey "IN" "now 1-d") =
          some (.good 0 [{ keyword := "upsc", score := 70, type := "rising",
                           source := "google_trends", timestamp := 0 }]) := by decide
      unfold get_cached_results
      rw [hlook]
      norm_num [envC7w])

/-- C9: the retry loop consults only attempt indices 0, 1, 2 (at most 3
attempts); the sleep after the i-th failing attempt is `(2 ** i) * 30`
seconds — 30 s, 60 s, 120 s — when the error text contains `429`, and a
`uniform(5, 10)` draw for any other error; and when all three attempts
fail, `fetch_google_trends` returns the fallback-query result. -/
theorem related_queries_retry_spec (geo timeframe : String) (use_cache : Bool)
    (cache_hours : Rat) (env : FetchEnv) (e0 e1 e2 : PyErr)
    (att2 : Nat → Except PyErr ProviderData)
    (hc : (use_cache && truthy (get_cached_results env.cache env.now
        (googleCacheKey geo timeframe) cache_hours)) = false)
    (ht : can_make_request env.now env.lastRequest = true)
    (hk : ctorFine env = true)
    (hb : env.buildPayload = none)
    (h0 : env.attempts 0 = .error e0) (h1 : env.attempts 1 = .error e1)
    (h2 : env.attempts 2 = .error e2)
    (hagree : ∀ i, i < 3 → env.attempts i = att2 i) :
    rqLoop env.attempts [0, 1, 2] =
      (none,
       [if strContains e0.msg "429" then SleepEvent.fixed 30 else SleepEvent.uniform 5 10,
        if strContains e1.msg "429" then SleepEvent.fixed 60 else SleepEvent.uniform 5 10,
        if strContains e2.msg "429" then SleepEvent.fixed 120 else SleepEvent.uniform 5 10]) ∧
    rqLoop env.attempts [0, 1, 2] = rqLoop att2 [0, 1, 2] ∧
    (fetch_google_trends geo timeframe use_cache cache_hours env).1 =
      .ok (fallback_interest env (fetch_dynamic_keywords env.suggestions)
            (googleCacheKey geo timeframe)).1 := by
  have hexp : ∀ att : Nat → Except PyErr ProviderData,
      att 0 = .error e0 → att 1 = .error e1 → att 2 = .error e2 →
      rqLoop att [0, 1, 2] =
        (none,
         [if strContains e0.msg "429" then SleepEvent.fixed 30 else SleepEvent.uniform 5 10,
          if strContains e1.msg "429" then SleepEvent.fixed 60 else SleepEvent.uniform 5 10,
          if strContains e2.msg "429" then SleepEvent.fixed 120
           else SleepEvent.uniform 5 10]) := by
    intro att a0 a1 a2
    simp only [rqLoop, a0, a1, a2]
    norm_num
  have hmain := hexp env.attempts h0 h1 h2
  have ha0 : att2 0 = .error e0 := (hagree 0 (by norm_num)).symm.trans h0
  have ha1 : att2 1 = .error e1 := (hagree 1 (by norm_num)).symm.trans h1
  have ha2 : att2 2 = .error e2 := (hagree 2 (by norm_num)).symm.trans h2
  refine ⟨hmain, ?_, ?_⟩
  · rw [hmain, hexp att2 ha0 ha1 ha2]
  · have hd : (rqLoop env.attempts [0, 1, 2]).1 = none := by rw [hmain]
    rw [fetch_fallback_eq geo timeframe use_cache cache_hours env hc ht hk hb hd]

/-- Environment of the C9 witness: attempt 1 fails with a non-rate-limit
error, attempts 0 and 2 fail with a 429 error. -/
def envC9w : FetchEnv :=
  { now := 0, cache := [], lastRequest := .absent,
    suggestions := fun _ => .fails,
    trendReq1 := none, trendReq2 := none, buildPayload := none,
    attempts := fun n => if n == 1 then .error ⟨false, "read timeout"⟩
                         else .error ⟨false, "HTTP 429 too many requests"⟩,
    interestOverTime := .ok (some [("exam", 50)]) }

/-- Witness for C9 at a concrete environment: sleeps 30 s, uniform
5 - 10 s, 120 s, and the fallback result is returned. -/
theorem related_queries_retry_spec_witness :
    rqLoop envC9w.attempts [0, 1, 2] =
      (none, [SleepEvent.fixed 30, SleepEvent.uniform 5 10, SleepEvent.fixed 120]) ∧
    rqLoop envC9w.attempts [0, 1, 2] = rqLoop envC9w.attempts [0, 1, 2] ∧
    (fetch_google_trends "IN" "now 1-d" true 1 envC9w).1 =
      .ok (fallback_interest envC9w (fetch_dynamic_keywords envC9w.suggestions)
            (googleCacheKey "IN" "now 1-d")).1 :=
  related_queries_retry_spec "IN" "now 1-d" true 1 envC9w
    ⟨false, "HTTP 429 too many requests"⟩ ⟨false, "read timeout"⟩
    ⟨false, "HTTP 429 too many requests"⟩ envC9w.attempts
    (by decide) (by decide) (by decide) (by decide) (by decide) (by decide) (by decide)
    (fun i _ => rfl)
